import Mathlib

/-!
Shallow embedding of `src/transformer_engine/__init__.py` (the package
bootstrap of TransformerEngine).

The module body is, statement by statement:

  (1) the core module `transformer_engine.common` is imported, with no
      try/except around it;
  (2) try: from . import pytorch / except (ImportError, FileNotFoundError): pass
  (3) try: from . import jax / except (ImportError, FileNotFoundError): pass
  (4) __version__ = str(metadata.version("transformer_engine"))

We model the environment (what each import would do, whether the
distribution metadata is present) explicitly and run the module body over
it, recording an event trace for ordering properties.
-/

namespace TransformerEngine

/-- Python exception types that matter to the bootstrap.  `other n` stands
for any exception type unrelated to imports or the filesystem (ValueError,
RuntimeError, ...), indexed so there are infinitely many of them. -/
inductive Exc where
  | moduleNotFoundError
  | importError
  | fileNotFoundError
  | packageNotFoundError
  | valueError
  | other (code : Nat)
deriving DecidableEq

/-- Python `isinstance(e, ImportError)`: `ModuleNotFoundError` and
`importlib.metadata.PackageNotFoundError` are subclasses of `ImportError`. -/
def Exc.isImportError : Exc → Bool
  | .moduleNotFoundError => true
  | .importError => true
  | .packageNotFoundError => true
  | _ => false

/-- Python `isinstance(e, FileNotFoundError)`. -/
def Exc.isFileNotFoundError : Exc → Bool
  | .fileNotFoundError => true
  | _ => false

/-- The exception filter of the two backend blocks in the source:
`except (ImportError, FileNotFoundError)`. -/
def caughtByBackendHandler (e : Exc) : Bool :=
  e.isImportError || e.isFileNotFoundError

/-- What `from . import <backend>` would do in the current process:
the backend package is not installed (Python then raises
`ModuleNotFoundError`, a subclass of `ImportError`), or it is installed and
its module initialization completes, or it is installed but its
initialization raises exception `e`. -/
inductive BackendEnv where
  | notInstalled
  | installedHealthy
  | installedRaising (e : Exc)
deriving DecidableEq

/-- Outcome of executing `from . import <backend>` itself (before any
`except` clause is considered). -/
def attemptImport : BackendEnv → Except Exc Unit
  | .notInstalled => .error .moduleNotFoundError
  | .installedHealthy => .ok ()
  | .installedRaising e => .error e

/-- Activation state of an optional backend, in the spec's vocabulary. -/
inductive ActivationState where
  | notAttempted
  | active
  | inactiveAbsent
  | inactiveFailed
deriving DecidableEq

/-- One `try: from . import <backend> / except (ImportError,
FileNotFoundError): pass` block.  A caught exception is swallowed and the
module body continues; the resulting state records whether the failure was
an absence (artifact not installed) or a fault in an installed backend.
An uncaught exception propagates out of the block. -/
def tryBackend (env : BackendEnv) : Except Exc ActivationState :=
  match attemptImport env with
  | .ok _ => .ok .active
  | .error e =>
    if caughtByBackendHandler e then
      .ok (if env = .notInstalled then .inactiveAbsent else .inactiveFailed)
    else
      .error e

/-- Names of the two registered optional backends. -/
inductive BackendName where
  | pytorch
  | jax
deriving DecidableEq

/-- Steps of the module body, for the event trace. -/
inductive Event where
  | coreAttempt
  | backendAttempt (b : BackendName)
  | versionResolution
deriving DecidableEq

/-- The process environment the module body runs in: what
`import transformer_engine.common` would do, what each backend import
would do, and what `metadata.version("transformer_engine")` would return
(`none` = distribution metadata missing, Python raises
`PackageNotFoundError`). -/
structure Env where
  core : Except Exc Unit
  pytorch : BackendEnv
  jax : BackendEnv
  metadata : Option String

/-- Observable module state after a successful import of the package. -/
structure BootState where
  coreActive : Bool
  pytorchState : ActivationState
  jaxState : ActivationState
  version : String
deriving DecidableEq

/-- The complete trace of a bootstrap that runs to the end. -/
def fullTrace : List Event :=
  [.coreAttempt, .backendAttempt .pytorch, .backendAttempt .jax,
   .versionResolution]

/-- The module body of `transformer_engine/__init__.py`, statement by
statement, together with the trace of steps begun.  An error result is an
exception propagating out of the module import. -/
def bootstrap (env : Env) : Except Exc BootState × List Event :=
  match env.core with
  | .error e => (.error e, [.coreAttempt])
  | .ok _ =>
    match tryBackend env.pytorch with
    | .error e => (.error e, [.coreAttempt, .backendAttempt .pytorch])
    | .ok ps =>
      match tryBackend env.jax with
      | .error e =>
          (.error e,
           [.coreAttempt, .backendAttempt .pytorch, .backendAttempt .jax])
      | .ok js =>
        match env.metadata with
        | none => (.error .packageNotFoundError, fullTrace)
        | some v => (.ok ⟨true, ps, js, v⟩, fullTrace)

/-- How often backend `b` was attempted in a trace. -/
def countAttempts (b : BackendName) : List Event → Nat
  | [] => 0
  | .backendAttempt a :: tr =>
      (if a = b then 1 else 0) + countAttempts b tr
  | _ :: tr => countAttempts b tr

/-- How often version resolution was performed in a trace. -/
def countResolutions : List Event → Nat
  | [] => 0
  | .versionResolution :: tr => countResolutions tr + 1
  | _ :: tr => countResolutions tr

/-- Reading `transformer_engine.__version__`: a pure read of the module
attribute set once at the end of the module body. -/
def readVersion (s : BootState) : String × BootState :=
  (s.version, s)

/-- C3: if core activation fails, bootstrap raises (the failure propagates
to the caller) and no optional backend activation is ever attempted. -/
theorem C3_core_failure_fail_fast (env : Env) (e : Exc)
    (hc : env.core = .error e) :
    (bootstrap env).1 = .error e ∧
      ∀ b, Event.backendAttempt b ∉ (bootstrap env).2 := by
  simp [bootstrap, hc]

theorem C3_core_failure_fail_fast_witness :
    (bootstrap ⟨.error .valueError, .installedHealthy, .installedHealthy,
        some "1.0"⟩).1 = .error .valueError ∧
      ∀ b, Event.backendAttempt b ∉
        (bootstrap ⟨.error .valueError, .installedHealthy, .installedHealthy,
          some "1.0"⟩).2 :=
  C3_core_failure_fail_fast _ _ rfl

/-- C8: any failure during core activation, of any exception type, is not
classified or suppressed: it propagates unchanged to the caller and aborts
bootstrap right there. -/
theorem C8_core_failure_fatal (env : Env) (e : Exc)
    (hc : env.core = .error e) :
    bootstrap env = (.error e, [.coreAttempt]) := by
  simp [bootstrap, hc]

theorem C8_core_failure_fatal_witness :
    bootstrap ⟨.error (.other 7), .installedHealthy, .installedHealthy,
        some "1.0"⟩ = (.error (.other 7), [.coreAttempt]) :=
  C8_core_failure_fatal _ _ rfl

/-- C5: exactly the Python types `ImportError` (with its subclasses
`ModuleNotFoundError` and `PackageNotFoundError`) and `FileNotFoundError`
are suppressed when raised during a backend's activation; any other
exception type propagates out of the try block and aborts bootstrap. -/
theorem C5_exact_exception_filter (env : Env) (e : Exc) (v : String)
    (hc : env.core = .ok ()) (hp : env.pytorch = .installedRaising e)
    (hj : env.jax = .installedHealthy) (hm : env.metadata = some v) :
    ((∃ s, (bootstrap env).1 = .ok s) ↔
      (e = .moduleNotFoundError ∨ e = .importError ∨
        e = .packageNotFoundError ∨ e = .fileNotFoundError)) ∧
      (caughtByBackendHandler e = false → (bootstrap env).1 = .error e) := by
  cases e <;>
    simp [bootstrap, hc, hp, hj, hm, tryBackend, attemptImport,
      caughtByBackendHandler, Exc.isImportError, Exc.isFileNotFoundError]

theorem C5_exact_exception_filter_witness :
    ((∃ s, (bootstrap ⟨.ok (), .installedRaising (.other 0),
        .installedHealthy, some "1.0"⟩).1 = .ok s) ↔
      ((.other 0 : Exc) = .moduleNotFoundError ∨
        (.other 0 : Exc) = .importError ∨
        (.other 0 : Exc) = .packageNotFoundError ∨
        (.other 0 : Exc) = .fileNotFoundError)) ∧
      (caughtByBackendHandler (.other 0) = false →
        (bootstrap ⟨.ok (), .installedRaising (.other 0), .installedHealthy,
          some "1.0"⟩).1 = .error (.other 0)) :=
  C5_exact_exception_filter _ _ _ rfl rfl rfl rfl

/-- C6: if a backend's supporting artifact is not installed, its import
raises `ModuleNotFoundError` (an `ImportError`), which the try block
swallows: no exception escapes the Activator, the state is
`inactive-absent`, and bootstrap completes when the rest is healthy. -/
theorem C6_absent_backend_tolerated (env : Env)
    (hp : env.pytorch = .notInstalled) :
    tryBackend env.pytorch = .ok .inactiveAbsent ∧
      ∀ v js, env.core = .ok () → tryBackend env.jax = .ok js →
        env.metadata = some v →
        ∃ s, (bootstrap env).1 = .ok s ∧ s.pytorchState = .inactiveAbsent := by
  refine ⟨by simp [hp, tryBackend, attemptImport, caughtByBackendHandler,
    Exc.isImportError], ?_⟩
  intro v js hc hj hm
  refine ⟨⟨true, .inactiveAbsent, js, v⟩, ?_, rfl⟩
  have hpy : tryBackend env.pytorch = .ok .inactiveAbsent := by
    simp [hp, tryBackend, attemptImport, caughtByBackendHandler,
      Exc.isImportError]
  simp [bootstrap, hc, hpy, hj, hm]

theorem C6_absent_backend_tolerated_witness :
    tryBackend (Env.pytorch ⟨.ok (), .notInstalled, .installedHealthy,
        some "1.0"⟩) = .ok .inactiveAbsent ∧
      ∀ v js, (Env.core ⟨.ok (), .notInstalled, .installedHealthy,
          some "1.0"⟩) = .ok () →
        tryBackend (Env.jax ⟨.ok (), .notInstalled, .installedHealthy,
          some "1.0"⟩) = .ok js →
        (Env.metadata ⟨.ok (), .notInstalled, .installedHealthy,
          some "1.0"⟩) = some v →
        ∃ s, (bootstrap ⟨.ok (), .notInstalled, .installedHealthy,
          some "1.0"⟩).1 = .ok s ∧ s.pytorchState = .inactiveAbsent :=
  C6_absent_backend_tolerated _ rfl

/-- C1 counterexample: a backend whose artifact is present but whose
initialization raises a `ValueError` is not suppressed — the exception
escapes both try blocks and bootstrap raises, so the process does not
start, contradicting the claim that every exception type is suppressed. -/
theorem C1_counterexample :
    (bootstrap ⟨.ok (), .installedRaising .valueError, .installedHealthy,
      some "1.0"⟩).1 = .error .valueError := rfl

/-- C1 (amended): an exception raised during an optional backend's
activation is suppressed exactly when it is an `ImportError` or a
`FileNotFoundError`; in that case the backend is left inactive-failed and
bootstrap still completes. -/
theorem C1_tolerated_failure_suppressed (env : Env) (e : Exc) (v : String)
    (hc : env.core = .ok ()) (hp : env.pytorch = .installedRaising e)
    (he : caughtByBackendHandler e = true)
    (hj : env.jax = .installedHealthy) (hm : env.metadata = some v) :
    (bootstrap env).1 = .ok ⟨true, .inactiveFailed, .active, v⟩ := by
  have hpy : tryBackend env.pytorch = .ok .inactiveFailed := by
    simp [hp, tryBackend, attemptImport, he]
  have hjx : tryBackend env.jax = .ok .active := by
    simp [hj, tryBackend, attemptImport]
  simp [bootstrap, hc, hpy, hjx, hm]

theorem C1_tolerated_failure_suppressed_witness :
    (bootstrap ⟨.ok (), .installedRaising .importError, .installedHealthy,
      some "2.0"⟩).1 = .ok ⟨true, .inactiveFailed, .active, "2.0"⟩ :=
  C1_tolerated_failure_suppressed _ _ _ rfl rfl rfl rfl rfl

/-- C2 counterexample: with the distribution metadata missing and
everything else healthy, `metadata.version` raises
`PackageNotFoundError` at module scope, so bootstrap raises — the failure
IS fatal to process startup, contradicting the claim. -/
theorem C2_counterexample :
    (bootstrap ⟨.ok (), .installedHealthy, .installedHealthy, none⟩).1
      = .error .packageNotFoundError := rfl

/-- C2 (amended): if the distribution metadata is missing, the version
resolution at the end of the module body raises `PackageNotFoundError`
and that exception propagates out of bootstrap (startup fails); core
activation and both backend activation attempts have already completed
by then, as the trace shows, so they are unaffected by the failure. -/
theorem C2_missing_metadata_fatal (env : Env) (ps js : ActivationState)
    (hc : env.core = .ok ()) (hp : tryBackend env.pytorch = .ok ps)
    (hj : tryBackend env.jax = .ok js) (hm : env.metadata = none) :
    bootstrap env = (.error .packageNotFoundError, fullTrace) := by
  simp [bootstrap, hc, hp, hj, hm]

theorem C2_missing_metadata_fatal_witness :
    bootstrap ⟨.ok (), .installedHealthy, .installedHealthy, none⟩
      = (.error .packageNotFoundError, fullTrace) :=
  C2_missing_metadata_fatal _ .active .active rfl rfl rfl rfl

/-- C4: for every subset of the optional backends {pytorch, jax} that is
installed (and healthy), with the core healthy and metadata present,
bootstrap completes without raising and exactly the installed backends end
up active; the others end up inactive-absent. -/
theorem C4_installed_subset_active (env : Env) (v : String)
    (hc : env.core = .ok ()) (hm : env.metadata = some v)
    (hp : env.pytorch = .notInstalled ∨ env.pytorch = .installedHealthy)
    (hj : env.jax = .notInstalled ∨ env.jax = .installedHealthy) :
    ∃ s, (bootstrap env).1 = .ok s ∧
      (s.pytorchState = .active ↔ env.pytorch = .installedHealthy) ∧
      (s.pytorchState = .inactiveAbsent ↔ env.pytorch = .notInstalled) ∧
      (s.jaxState = .active ↔ env.jax = .installedHealthy) ∧
      (s.jaxState = .inactiveAbsent ↔ env.jax = .notInstalled) := by
  have run : ∀ b : BackendEnv,
      b = .notInstalled ∨ b = .installedHealthy →
      ∃ st, tryBackend b = .ok st ∧
        (st = .active ↔ b = .installedHealthy) ∧
        (st = .inactiveAbsent ↔ b = .notInstalled) := by
    rintro b (rfl | rfl)
    · exact ⟨.inactiveAbsent, by simp [tryBackend, attemptImport,
        caughtByBackendHandler, Exc.isImportError], by simp, by simp⟩
    · exact ⟨.active, by simp [tryBackend, attemptImport], by simp, by simp⟩
  obtain ⟨ps, hps, hps1, hps2⟩ := run env.pytorch hp
  obtain ⟨js, hjs, hjs1, hjs2⟩ := run env.jax hj
  exact ⟨⟨true, ps, js, v⟩, by simp [bootstrap, hc, hps, hjs, hm],
    hps1, hps2, hjs1, hjs2⟩

theorem C4_installed_subset_active_witness :
    ∃ s, (bootstrap ⟨.ok (), .installedHealthy, .notInstalled,
        some "1.0"⟩).1 = .ok s ∧
      (s.pytorchState = .active ↔
        (Env.pytorch ⟨.ok (), .installedHealthy, .notInstalled,
          some "1.0"⟩) = .installedHealthy) ∧
      (s.pytorchState = .inactiveAbsent ↔
        (Env.pytorch ⟨.ok (), .installedHealthy, .notInstalled,
          some "1.0"⟩) = .notInstalled) ∧
      (s.jaxState = .active ↔
        (Env.jax ⟨.ok (), .installedHealthy, .notInstalled,
          some "1.0"⟩) = .installedHealthy) ∧
      (s.jaxState = .inactiveAbsent ↔
        (Env.jax ⟨.ok (), .installedHealthy, .notInstalled,
          some "1.0"⟩) = .notInstalled) :=
  C4_installed_subset_active _ _ rfl rfl (Or.inr rfl) (Or.inl rfl)

/-- C7: version resolution is performed at most once per bootstrap; the
cached `__version__` is exactly what the metadata reported, so two
consecutive reads of the attribute return the identical value; and when
the metadata is missing, no successful module state exists (every query
fails) and the resolution step, when reached, fails with
`PackageNotFoundError` consistently. -/
theorem C7_version_resolution_idempotent (env : Env) :
    countResolutions (bootstrap env).2 ≤ 1 ∧
      (∀ s, (bootstrap env).1 = .ok s →
        env.metadata = some s.version ∧
          (readVersion ((readVersion s).2)).1 = (readVersion s).1) ∧
      (env.metadata = none → ∀ s, (bootstrap env).1 ≠ .ok s) ∧
      (env.metadata = none → countResolutions (bootstrap env).2 = 1 →
        (bootstrap env).1 = .error .packageNotFoundError) := by
  obtain ⟨c, p, j, m⟩ := env
  cases c with
  | error e => simp [bootstrap, countResolutions]
  | ok _ =>
    cases hp : tryBackend p with
    | error e => simp [bootstrap, hp, countResolutions]
    | ok ps =>
      cases hj : tryBackend j with
      | error e => simp [bootstrap, hp, hj, countResolutions]
      | ok js =>
        cases m with
        | none =>
          simp [bootstrap, hp, hj, countResolutions, fullTrace, readVersion]
        | some v =>
          simp [bootstrap, hp, hj, countResolutions, fullTrace, readVersion]

theorem C7_version_resolution_idempotent_witness :
    (Env.metadata ⟨.ok (), .installedHealthy, .installedHealthy,
        some "3.1.0"⟩)
        = some (BootState.version ⟨true, .active, .active, "3.1.0"⟩) ∧
      (readVersion ((readVersion
          (⟨true, .active, .active, "3.1.0"⟩ : BootState)).2)).1
        = (readVersion (⟨true, .active, .active, "3.1.0"⟩ : BootState)).1 :=
  (C7_version_resolution_idempotent
    ⟨.ok (), .installedHealthy, .installedHealthy, some "3.1.0"⟩).2.1 _ rfl

/-- C9 counterexample: when the pytorch backend's activation fails with a
`ValueError`, the jax backend is never attempted (its attempt count in
the trace is 0, while pytorch's is 1), contradicting the claim that each
backend is attempted exactly once independently of the other's outcome. -/
theorem C9_counterexample :
    countAttempts .jax
        (bootstrap ⟨.ok (), .installedRaising .valueError, .installedHealthy,
          some "1.0"⟩).2 = 0 ∧
      countAttempts .pytorch
        (bootstrap ⟨.ok (), .installedRaising .valueError, .installedHealthy,
          some "1.0"⟩).2 = 1 :=
  ⟨rfl, rfl⟩

/-- C9 (amended): each backend is attempted at most once per bootstrap;
pytorch is attempted exactly once whenever core activation succeeds, and
jax is attempted exactly once if and only if core activation succeeds and
pytorch's try block completes (activation succeeded or its failure was
suppressed).  A non-tolerated exception from pytorch aborts bootstrap
before jax is attempted. -/
theorem C9_attempted_once_unless_aborted (env : Env) :
    countAttempts .pytorch (bootstrap env).2 ≤ 1 ∧
      countAttempts .jax (bootstrap env).2 ≤ 1 ∧
      (env.core = .ok () → countAttempts .pytorch (bootstrap env).2 = 1) ∧
      ((env.core = .ok () ∧ ∃ ps, tryBackend env.pytorch = .ok ps) ↔
        countAttempts .jax (bootstrap env).2 = 1) := by
  obtain ⟨c, p, j, m⟩ := env
  cases c with
  | error e => simp [bootstrap, countAttempts]
  | ok _ =>
    cases hp : tryBackend p with
    | error e => simp [bootstrap, hp, countAttempts]
    | ok ps =>
      cases hj : tryBackend j with
      | error e => simp [bootstrap, hp, hj, countAttempts, fullTrace]
      | ok js =>
        cases m with
        | none => simp [bootstrap, hp, hj, countAttempts, fullTrace]
        | some v => simp [bootstrap, hp, hj, countAttempts, fullTrace]

theorem C9_attempted_once_unless_aborted_witness :
    countAttempts .pytorch
        (bootstrap ⟨.ok (), .notInstalled, .installedHealthy,
          some "1.0"⟩).2 = 1 :=
  (C9_attempted_once_unless_aborted
    ⟨.ok (), .notInstalled, .installedHealthy, some "1.0"⟩).2.2.1 rfl

/-- C10: bootstrap runs its steps in the fixed order core activation,
pytorch attempt, jax attempt, version resolution — the trace is always an
initial segment of that sequence — and whenever bootstrap completes
successfully the whole sequence has run, so version resolution is
evaluated eagerly during bootstrap, after both backend attempts. -/
theorem C10_deterministic_order (env : Env) :
    ((bootstrap env).2 = [.coreAttempt] ∨
      (bootstrap env).2 = [.coreAttempt, .backendAttempt .pytorch] ∨
      (bootstrap env).2 =
        [.coreAttempt, .backendAttempt .pytorch, .backendAttempt .jax] ∨
      (bootstrap env).2 = fullTrace) ∧
      ∀ s, (bootstrap env).1 = .ok s → (bootstrap env).2 = fullTrace := by
  obtain ⟨c, p, j, m⟩ := env
  cases c with
  | error e => simp [bootstrap]
  | ok _ =>
    cases hp : tryBackend p with
    | error e => simp [bootstrap, hp]
    | ok ps =>
      cases hj : tryBackend j with
      | error e => simp [bootstrap, hp, hj]
      | ok js =>
        cases m with
        | none => simp [bootstrap, hp, hj]
        | some v => simp [bootstrap, hp, hj]

theorem C10_deterministic_order_witness :
    (bootstrap ⟨.ok (), .installedHealthy, .installedHealthy,
        some "1.0"⟩).2 = fullTrace :=
  (C10_deterministic_order
    ⟨.ok (), .installedHealthy, .installedHealthy, some "1.0"⟩).2
    ⟨true, .active, .active, "1.0"⟩ rfl

end TransformerEngine
